import Mathlib

/-!
Verification of the LibCST metadata-dependency core against its source.

The embedding follows `src/libcst/metadata/dependent.py` (the authority for
`MetadataDependent`), the test expectations in
`src/libcst/metadata/tests/test_expression_context_provider.py`, and, for the
parts of the repository whose code is not available (the expression context
provider itself and `MetadataWrapper.resolve_many`), the specification's
description of those components.
-/

namespace LibCSTSpec

/-- A metadata provider kind (`ProviderT` in the source): a type-level
identifier for one provider.  Modelled as an opaque natural-number tag. -/
abbrev ProviderKind := Nat

/-- One class in a Python method-resolution order, as seen by
`MetadataDependent.get_inherited_dependencies`: its declared
`METADATA_DEPENDENCIES` collection and whether `issubclass(c, MetadataDependent)`
holds. -/
structure PyClass where
  deps : List ProviderKind
  isDependent : Bool
deriving DecidableEq, Repr

/-- A `MetadataDependent` subtype, represented by its method-resolution order
(`inspect.getmro(cls)`), which starts with the class itself and lists every
ancestor. -/
structure DependentType where
  mro : List PyClass
deriving DecidableEq, Repr

/-- The loop body of `MetadataDependent.get_inherited_dependencies`
(dependent.py lines 71-75): starting from the empty set, union in
`c.METADATA_DEPENDENCIES` for every class `c` in the MRO that subclasses
`MetadataDependent`. -/
def computeInheritedDeps (cls : DependentType) : Finset ProviderKind :=
  cls.mro.foldl (fun acc c => if c.isDependent then acc ∪ c.deps.toFinset else acc) ∅

/-- `MetadataDependent.get_inherited_dependencies` (dependent.py lines 59-77)
with its per-type cache made explicit: the `cache` argument models the hidden
attribute `_INHERITED_METADATA_DEPENDENCIES_CACHE` (absent = `AttributeError`
branch).  Returns the result, the cache after the call, and whether the union
was recomputed on this call. -/
def get_inherited_dependencies (cls : DependentType)
    (cache : Option (Finset ProviderKind)) :
    Finset ProviderKind × Option (Finset ProviderKind) × Bool :=
  match cache with
  | some v => (v, some v, false)
  | none =>
      let d := computeInheritedDeps cls
      (d, some d, true)

/-- Python `dict` lookup on an association list (first binding wins; the
embedding only ever builds lists with distinct keys, as a `dict` has). -/
def lookupD {α β : Type} [DecidableEq α] : List (α × β) → α → Option β
  | [], _ => none
  | (a, b) :: rest, k => if k = a then some b else lookupD rest k

/-- A `MetadataDependent` instance: its (dynamic) type and its `metadata`
attribute, the mapping `ProviderT -> (CSTNode -> value)` held between
`resolve` enter and exit. -/
structure DependentInst (Node V : Type) where
  cls : DependentType
  metadata : List (ProviderKind × List (Node × V))

/-- `MetadataDependent.__init__` (dependent.py lines 56-57): the fresh
instance holds the empty metadata mapping. -/
def DependentInst.init (Node V : Type) (cls : DependentType) :
    DependentInst Node V :=
  ⟨cls, []⟩

/-- Outcome of a call to `MetadataDependent.get_metadata`:
a returned value, the explicitly raised `KeyError` for an undeclared
dependency (dependent.py lines 105-108), or the `KeyError` raised by a `dict`
lookup (`self.metadata[key]` or `self.metadata[key][node]`,
dependent.py lines 110-113). -/
inductive GetResult (V : Type) where
  | ok (v : V)
  | errNotDeclared
  | errKeyError
deriving DecidableEq, Repr

/-- `MetadataDependent.get_metadata` (dependent.py lines 94-113).  The
sentinel `_UNDEFINED_DEFAULT` is modelled by `default : Option V`
(`none` = no default supplied).  The declared-dependency check comes first;
only then is `self.metadata` consulted: with a default,
`self.metadata[key].get(node, default)`; without, `self.metadata[key][node]`. -/
def get_metadata {Node V : Type} [DecidableEq Node]
    (self : DependentInst Node V) (key : ProviderKind) (node : Node)
    (default : Option V) : GetResult V :=
  if key ∉ computeInheritedDeps self.cls then
    GetResult.errNotDeclared
  else
    match default with
    | some d =>
        match lookupD self.metadata key with
        | none => GetResult.errKeyError
        | some inner => GetResult.ok ((lookupD inner node).getD d)
    | none =>
        match lookupD self.metadata key with
        | none => GetResult.errKeyError
        | some inner =>
            match lookupD inner node with
            | none => GetResult.errKeyError
            | some v => GetResult.ok v

/-- How the body of a `with dependent.resolve(wrapper):` block ends. -/
inductive SessionEnd where
  | normal
  | fault
deriving DecidableEq, Repr

/-- `MetadataDependent.resolve` (dependent.py lines 79-92), a
`@contextmanager` generator with a bare `yield` and no `try/finally`:
entering sets `self.metadata` to the resolved mapping; if the body returns
normally the generator resumes and runs `self.metadata = {}`; if the body
raises, the exception is thrown in at the `yield` and propagates, so the
clearing assignment never executes. -/
def resolve {Node V : Type} (self : DependentInst Node V)
    (resolved : List (ProviderKind × List (Node × V))) (outcome : SessionEnd) :
    DependentInst Node V :=
  let active : DependentInst Node V := { self with metadata := resolved }
  match outcome with
  | SessionEnd.normal => { active with metadata := [] }
  | SessionEnd.fault => active

/-- Modelled from the spec: the Resolver (`MetadataWrapper`), whose code is
not among the available source files.  Per the spec it computes one mapping
per provider for one tree snapshot and caches it keyed by provider kind, so
each (tree, provider) pair is computed at most once.  `compute` is the
provider's pure computation for the fixed tree, `cache` the per-tree cache,
and `runCount` counts how often each provider has actually been run (the
spec's observable "computation counter in tests"). -/
structure Resolver (Node V : Type) where
  compute : ProviderKind → List (Node × V)
  cache : List (ProviderKind × List (Node × V))
  runCount : ProviderKind → Nat

/-- Modelled from the spec: a fresh Resolver for a tree snapshot — empty
cache, no provider has run yet. -/
def Resolver.start {Node V : Type} (compute : ProviderKind → List (Node × V)) :
    Resolver Node V :=
  ⟨compute, [], fun _ => 0⟩

/-- Modelled from the spec: resolving one requested kind inside
`resolve_many` — "for each requested kind not already cached for this tree,
computes its mapping ..., caches the result; re-requesting an already-cached
kind returns the cached result without recomputation". -/
def Resolver.resolveOne {Node V : Type} (r : Resolver Node V)
    (kind : ProviderKind) : List (Node × V) × Resolver Node V :=
  match lookupD r.cache kind with
  | some m => (m, r)
  | none =>
      let m := r.compute kind
      (m, { r with
              cache := (kind, m) :: r.cache,
              runCount := fun k => if k = kind then r.runCount k + 1 else r.runCount k })

/-- Modelled from the spec: `MetadataWrapper.resolve_many` over a list of
requested kinds, returning the combined mapping restricted to exactly the
requested kinds together with the updated Resolver state. -/
def resolve_many {Node V : Type} (r : Resolver Node V) :
    List ProviderKind → List (ProviderKind × List (Node × V)) × Resolver Node V
  | [] => ([], r)
  | k :: ks =>
      let p := r.resolveOne k
      let rest := resolve_many p.2 ks
      ((k, p.1) :: rest.1, rest.2)

/-- A sequence of `resolve_many` requests against the same tree's Resolver. -/
def Resolver.applyMany {Node V : Type} (r : Resolver Node V) :
    List (List ProviderKind) → Resolver Node V
  | [] => r
  | ks :: rest => Resolver.applyMany (resolve_many r ks).2 rest

/-! ## Expression context provider

The provider's own module is not among the available source files; the model
below is built from the spec's propagation rules (spec §4.3) and pinned by the
expectations of `src/libcst/metadata/tests/test_expression_context_provider.py`
(which keys Attribute nodes by their `attr` name, Subscript and StarredElement
nodes by their value's name, and Tuple/List nodes by their element names). -/

/-- The three usage contexts. -/
inductive ExpressionContext where
  | LOAD
  | STORE
  | DEL
deriving DecidableEq, Repr

mutual
/-- Expression shapes relevant to the context provider. -/
inductive Expr where
  | name (id : String)
  | attribute (obj : Expr) (attr : String)
  | subscript (obj : Expr) (idx : Expr)
  | starred (e : Expr)
  | tupleE (elts : ExprList)
  | listE (elts : ExprList)
  | call (func : Expr) (args : ExprList)
/-- A list of expressions (tuple/list elements, call arguments). -/
inductive ExprList where
  | nil
  | cons (e : Expr) (rest : ExprList)
end

/-- Identity of a node in one of the concrete test programs, keyed the way the
test visitors key them; all programs considered use distinct names, so these
keys are unique per program. -/
inductive NodeKey where
  | nameK (id : String)
  | attrK (attr : String)
  | subscriptK (valName : String)
  | starredK (valName : String)
  | tupleK (ids : List String)
  | listK (ids : List String)
  | callK (funcName : String)
deriving DecidableEq, Repr

/-- The head name of an expression (tests assume Subscript/StarredElement
values are plain names). -/
def headName : Expr → String
  | Expr.name id => id
  | _ => ""

/-- Element names of a tuple/list (tests assume elements are plain names). -/
def elNames : ExprList → List String
  | ExprList.nil => []
  | ExprList.cons e rest => headName e :: elNames rest

mutual
/-- Modelled from the spec: the context-propagation pass over one expression,
`ctx` being the context pushed onto this node (spec §4.3).  Produces, in
pre-order, each node's key with `some` context, or `none` for a node with no
context role (a call).  Rules: a Name takes the pushed context; an Attribute
node and its `attr` Name take the pushed context while the object keeps LOAD
(per test `test_assign_to_attribute`); a Subscript node takes the pushed
context while object and index keep LOAD; a StarredElement takes the pushed
context while the wrapped expression keeps LOAD; Tuple/List take the pushed
context and recurse it into every element; a Call gets no entry and its
function and arguments keep LOAD. -/
def visitExpr (ctx : ExpressionContext) :
    Expr → List (NodeKey × Option ExpressionContext)
  | Expr.name id => [(NodeKey.nameK id, some ctx)]
  | Expr.attribute obj attr =>
      (NodeKey.attrK attr, some ctx) :: (NodeKey.nameK attr, some ctx) ::
        visitExpr ExpressionContext.LOAD obj
  | Expr.subscript obj idx =>
      (NodeKey.subscriptK (headName obj), some ctx) ::
        (visitExpr ExpressionContext.LOAD obj ++ visitExpr ExpressionContext.LOAD idx)
  | Expr.starred e =>
      (NodeKey.starredK (headName e), some ctx) ::
        visitExpr ExpressionContext.LOAD e
  | Expr.tupleE elts =>
      (NodeKey.tupleK (elNames elts), some ctx) :: visitList ctx elts
  | Expr.listE elts =>
      (NodeKey.listK (elNames elts), some ctx) :: visitList ctx elts
  | Expr.call func args =>
      (NodeKey.callK (headName func), none) ::
        (visitExpr ExpressionContext.LOAD func ++ visitList ExpressionContext.LOAD args)
/-- The pass over a list of sibling expressions, each pushed `ctx`. -/
def visitList (ctx : ExpressionContext) :
    ExprList → List (NodeKey × Option ExpressionContext)
  | ExprList.nil => []
  | ExprList.cons e rest => visitExpr ctx e ++ visitList ctx rest
end

/-- Statement shapes relevant to the context provider. -/
inductive Stmt where
  | assign (target value : Expr)
  | augAssign (target value : Expr)
  | annAssign (target annot value : Expr)
  | delS (e : Expr)
  | exprS (e : Expr)

/-- Modelled from the spec: the pass over one statement — assignment-like
targets are pushed STORE, deletion operands DEL, everything else LOAD
(spec §4.3). -/
def visitStmt : Stmt → List (NodeKey × Option ExpressionContext)
  | Stmt.assign t v =>
      visitExpr ExpressionContext.STORE t ++ visitExpr ExpressionContext.LOAD v
  | Stmt.augAssign t v =>
      visitExpr ExpressionContext.STORE t ++ visitExpr ExpressionContext.LOAD v
  | Stmt.annAssign t a v =>
      visitExpr ExpressionContext.STORE t ++ visitExpr ExpressionContext.LOAD a ++
        visitExpr ExpressionContext.LOAD v
  | Stmt.delS e => visitExpr ExpressionContext.DEL e
  | Stmt.exprS e => visitExpr ExpressionContext.LOAD e

/-- The mapping the provider hands to the Resolver: only nodes that received a
context appear; a node annotated `none` produces no entry. -/
def providerMapping (s : Stmt) : List (NodeKey × ExpressionContext) :=
  (visitStmt s).filterMap (fun p => p.2.map (fun c => (p.1, c)))

/-- The program `a.b = c.d` (test `test_assign_to_attribute`). -/
def progAttrAssign : Stmt :=
  Stmt.assign (Expr.attribute (Expr.name "a") "b")
    (Expr.attribute (Expr.name "c") "d")

/-- The program `*a = b` (test `test_starred_element_with_assign`). -/
def progStarredAssign : Stmt :=
  Stmt.assign (Expr.starred (Expr.name "a")) (Expr.name "b")

/-- The program `a()` (test `test_invalid_type_for_context`). -/
def progCall : Stmt :=
  Stmt.exprS (Expr.call (Expr.name "a") ExprList.nil)

/-! ## Helper lemmas -/

/-- Membership in the MRO fold: a kind is collected exactly when some class in
the MRO subclasses `MetadataDependent` and declares it. -/
theorem mem_computeInheritedDeps (cls : DependentType) (p : ProviderKind) :
    p ∈ computeInheritedDeps cls ↔
      ∃ c ∈ cls.mro, c.isDependent = true ∧ p ∈ c.deps := by
  have h : ∀ (l : List PyClass) (s : Finset ProviderKind),
      p ∈ l.foldl (fun acc c => if c.isDependent then acc ∪ c.deps.toFinset else acc) s ↔
        p ∈ s ∨ ∃ c ∈ l, c.isDependent = true ∧ p ∈ c.deps := by
    intro l
    induction l with
    | nil => intro s; simp
    | cons c cs ih =>
        intro s
        simp only [List.foldl_cons]
        rw [ih]
        by_cases hc : c.isDependent = true
        · simp [hc, Finset.mem_union, List.mem_toFinset]
          try tauto
        · simp [hc]
          try tauto
  unfold computeInheritedDeps
  simpa using h cls.mro ∅

/-! ## Claim theorems -/

/-- Claim C1: for every `MetadataDependent` instance, node and provider kind,
`get_metadata` fails with the dependency-not-declared error iff the kind is
not in the type's effective (inherited) dependency set; since the instance
and its metadata mapping are universally quantified, the failure is
independent of any lookup in the mapping. -/
theorem get_metadata_not_declared_iff {Node V : Type} [DecidableEq Node]
    (self : DependentInst Node V) (key : ProviderKind) (node : Node)
    (default : Option V) :
    get_metadata self key node default = GetResult.errNotDeclared ↔
      key ∉ computeInheritedDeps self.cls := by
  unfold get_metadata
  by_cases h : key ∉ computeInheritedDeps self.cls
  · simp [h]
  · rw [if_neg h]
    apply iff_of_false _ h
    intro heq
    repeat' split at heq
    all_goals simp_all

/-- Claim C3: `get_inherited_dependencies` computes the union, over the type
itself and every ancestor in its MRO that is a `MetadataDependent`, of the
declared `METADATA_DEPENDENCIES` sets; the first computation stores the
result in the per-type cache, and a call that finds the cache populated
returns the cached set without recomputation. -/
theorem get_inherited_dependencies_spec (cls : DependentType) :
    (∀ p, p ∈ (get_inherited_dependencies cls none).1 ↔
        ∃ c ∈ cls.mro, c.isDependent = true ∧ p ∈ c.deps) ∧
    (get_inherited_dependencies cls none).2 =
      (some (get_inherited_dependencies cls none).1, true) ∧
    (∀ v, get_inherited_dependencies cls (some v) = (v, some v, false)) := by
  refine ⟨?_, rfl, fun v => rfl⟩
  intro p
  simpa [get_inherited_dependencies] using mem_computeInheritedDeps cls p

/-- Claim C8: if `D` extends `C` (so every class in `C`'s MRO also appears in
`D`'s MRO), then `D`'s effective dependency set is a superset of `C`'s. -/
theorem inherited_deps_monotone (c d : DependentType)
    (h : ∀ x ∈ c.mro, x ∈ d.mro) :
    computeInheritedDeps c ⊆ computeInheritedDeps d := by
  intro p hp
  rw [mem_computeInheritedDeps] at hp ⊢
  obtain ⟨x, hx, hdep, hpx⟩ := hp
  exact ⟨x, h x hx, hdep, hpx⟩

/-- Witness for C8 at concrete types: the subtype's MRO extends the
ancestor's, and the ancestor's effective set is contained in the subtype's. -/
theorem inherited_deps_monotone_witness :
    (∀ x ∈ (⟨[⟨[1], true⟩, ⟨[0], true⟩]⟩ : DependentType).mro,
        x ∈ (⟨[⟨[2], true⟩, ⟨[1], true⟩, ⟨[0], true⟩]⟩ : DependentType).mro) ∧
    computeInheritedDeps ⟨[⟨[1], true⟩, ⟨[0], true⟩]⟩ ⊆
      computeInheritedDeps ⟨[⟨[2], true⟩, ⟨[1], true⟩, ⟨[0], true⟩]⟩ :=
  ⟨by decide, inherited_deps_monotone _ _ (by decide)⟩

/-- Claim C2 (evaluated at the failing input): a `resolve` session whose body
raises leaves the instance's metadata equal to the resolved mapping — here the
concrete non-empty mapping `[(0, [(7, 3)])]` — so the mapping is NOT reset to
empty before the fault propagates; only the normal exit path clears it.  The
generator body of `resolve` has no `try/finally` around its `yield`, so the
clearing assignment is skipped on a fault, contradicting the claim (and the
method's own docstring, which promises clearing upon exiting the context
manager). -/
theorem resolve_fault_preserves_metadata :
    (resolve (DependentInst.init Nat Nat ⟨[⟨[0], true⟩]⟩)
        [(0, [(7, 3)])] SessionEnd.fault).metadata = [(0, [(7, 3)])] ∧
    ([(0, [(7, 3)])] : List (ProviderKind × List (Nat × Nat))) ≠ [] ∧
    (resolve (DependentInst.init Nat Nat ⟨[⟨[0], true⟩]⟩)
        [(0, [(7, 3)])] SessionEnd.normal).metadata = [] :=
  ⟨rfl, by decide, rfl⟩

/-- Claim C4: in `a.b = c.d` the provider assigns name `a` LOAD, the
Attribute node for `b` STORE, name `c` LOAD, and the Attribute node for `d`
LOAD: the assignment target's own Attribute node receives the pushed STORE
while its object sub-expression keeps LOAD. -/
theorem context_assign_to_attribute :
    lookupD (providerMapping progAttrAssign) (NodeKey.nameK "a") =
      some ExpressionContext.LOAD ∧
    lookupD (providerMapping progAttrAssign) (NodeKey.attrK "b") =
      some ExpressionContext.STORE ∧
    lookupD (providerMapping progAttrAssign) (NodeKey.nameK "c") =
      some ExpressionContext.LOAD ∧
    lookupD (providerMapping progAttrAssign) (NodeKey.attrK "d") =
      some ExpressionContext.LOAD := by
  refine ⟨?_, ?_, ?_, ?_⟩ <;> rfl

/-- Claim C5: in `*a = b` the StarredElement node receives STORE while the
name `a` it wraps and the name `b` both receive LOAD: the pushed context does
not propagate past the star wrapper. -/
theorem context_starred_assign :
    lookupD (providerMapping progStarredAssign) (NodeKey.starredK "a") =
      some ExpressionContext.STORE ∧
    lookupD (providerMapping progStarredAssign) (NodeKey.nameK "a") =
      some ExpressionContext.LOAD ∧
    lookupD (providerMapping progStarredAssign) (NodeKey.nameK "b") =
      some ExpressionContext.LOAD := by
  refine ⟨?_, ?_, ?_⟩ <;> rfl

/-- Claim C6: the call node of `a()` has no context role, so the provider's
mapping contains no entry for it, and for any `MetadataDependent` type that
declares the provider, querying the call node's context without a default
fails with the missing-metadata `KeyError`. -/
theorem no_context_role_missing_metadata (cls : DependentType)
    (pk : ProviderKind) (h : pk ∈ computeInheritedDeps cls) :
    lookupD (providerMapping progCall) (NodeKey.callK "a") = none ∧
    get_metadata
        (⟨cls, [(pk, providerMapping progCall)]⟩ :
          DependentInst NodeKey ExpressionContext)
        pk (NodeKey.callK "a") none = GetResult.errKeyError := by
  have hmap : lookupD (providerMapping progCall) (NodeKey.callK "a") = none := by
    decide
  refine ⟨hmap, ?_⟩
  unfold get_metadata
  rw [if_neg (not_not_intro h)]
  simp [lookupD, hmap]

/-- Witness for C6 at a concrete type declaring provider kind 0. -/
theorem no_context_role_missing_metadata_witness :
    (0 : ProviderKind) ∈ computeInheritedDeps ⟨[⟨[0], true⟩]⟩ ∧
    (lookupD (providerMapping progCall) (NodeKey.callK "a") = none ∧
      get_metadata
          (⟨⟨[⟨[0], true⟩]⟩, [(0, providerMapping progCall)]⟩ :
            DependentInst NodeKey ExpressionContext)
          0 (NodeKey.callK "a") none = GetResult.errKeyError) :=
  ⟨by decide, no_context_role_missing_metadata ⟨[⟨[0], true⟩]⟩ 0 (by decide)⟩

/-- Claim C7: inside an active session (the metadata mapping holds an inner
mapping for the declared kind), `get_metadata` returns the stored value when
the node is present (with or without a default), returns the default when the
node is absent and a default was supplied, and fails with the
missing-metadata `KeyError` when the node is absent and no default was
supplied. -/
theorem get_metadata_lookup_spec {Node V : Type} [DecidableEq Node]
    (self : DependentInst Node V) (key : ProviderKind)
    (inner : List (Node × V)) (node : Node) (d : V)
    (hdecl : key ∈ computeInheritedDeps self.cls)
    (hin : lookupD self.metadata key = some inner) :
    (∀ v, lookupD inner node = some v →
        get_metadata self key node none = GetResult.ok v ∧
        get_metadata self key node (some d) = GetResult.ok v) ∧
    (lookupD inner node = none →
        get_metadata self key node (some d) = GetResult.ok d ∧
        get_metadata self key node none = GetResult.errKeyError) := by
  unfold get_metadata
  rw [if_neg (not_not_intro hdecl), if_neg (not_not_intro hdecl)]
  constructor
  · intro v hv
    simp [hin, hv]
  · intro hv
    simp [hin, hv]

/-- Witness for C7 at a concrete instance: kind 0 declared, inner mapping
`[(5, 7)]`, present node 5 and absent node 6, default 9. -/
theorem get_metadata_lookup_spec_witness :
    ((0 : ProviderKind) ∈
        computeInheritedDeps ⟨[⟨[0], true⟩]⟩ ∧
      lookupD ([(0, [(5, 7)])] : List (ProviderKind × List (Nat × Nat))) 0 =
        some [(5, 7)]) ∧
    (get_metadata (⟨⟨[⟨[0], true⟩]⟩, [(0, [(5, 7)])]⟩ : DependentInst Nat Nat)
        0 5 none = GetResult.ok 7 ∧
      get_metadata (⟨⟨[⟨[0], true⟩]⟩, [(0, [(5, 7)])]⟩ : DependentInst Nat Nat)
        0 5 (some 9) = GetResult.ok 7) ∧
    (get_metadata (⟨⟨[⟨[0], true⟩]⟩, [(0, [(5, 7)])]⟩ : DependentInst Nat Nat)
        0 6 (some 9) = GetResult.ok 9 ∧
      get_metadata (⟨⟨[⟨[0], true⟩]⟩, [(0, [(5, 7)])]⟩ : DependentInst Nat Nat)
        0 6 none = GetResult.errKeyError) := by
  have h5 := get_metadata_lookup_spec
    (⟨⟨[⟨[0], true⟩]⟩, [(0, [(5, 7)])]⟩ : DependentInst Nat Nat)
    0 [(5, 7)] 5 9 (by decide) rfl
  have h6 := get_metadata_lookup_spec
    (⟨⟨[⟨[0], true⟩]⟩, [(0, [(5, 7)])]⟩ : DependentInst Nat Nat)
    0 [(5, 7)] 6 9 (by decide) rfl
  exact ⟨⟨by decide, rfl⟩, h5.1 7 rfl, h6.2 rfl⟩

/-- Claim C10: outside any resolution session the instance's metadata mapping
is the empty dict set by `__init__` (equally, by a completed session), so
`get_metadata` on a declared kind raises the `KeyError` from
`self.metadata[key]` even when a default is supplied. -/
theorem get_metadata_outside_session_keyerror {Node V : Type}
    [DecidableEq Node] (cls : DependentType) (key : ProviderKind)
    (node : Node) (d : V) (h : key ∈ computeInheritedDeps cls) :
    get_metadata (DependentInst.init Node V cls) key node (some d) =
      GetResult.errKeyError := by
  unfold get_metadata DependentInst.init
  rw [if_neg (not_not_intro h)]
  rfl

/-- Resolver invariant: every provider has run at most once, and a provider
absent from the cache has never run. -/
def ResolverInv {Node V : Type} (r : Resolver Node V) : Prop :=
  ∀ k, r.runCount k ≤ 1 ∧ (lookupD r.cache k = none → r.runCount k = 0)

/-- `resolveOne` preserves the at-most-once invariant. -/
theorem resolveOne_inv {Node V : Type} (r : Resolver Node V)
    (kind : ProviderKind) (h : ResolverInv r) :
    ResolverInv (r.resolveOne kind).2 := by
  unfold Resolver.resolveOne
  cases hc : lookupD r.cache kind with
  | some m => exact h
  | none =>
      intro k
      by_cases hk : k = kind
      · subst hk
        have h0 : r.runCount k = 0 := (h k).2 hc
        constructor
        · simp [h0]
        · intro hnone
          simp [lookupD] at hnone
      · constructor
        · simpa [hk] using (h k).1
        · intro hnone
          simp only [lookupD] at hnone
          rw [if_neg hk] at hnone
          simpa [hk] using (h k).2 hnone

/-- `resolve_many` preserves the at-most-once invariant. -/
theorem resolve_many_inv {Node V : Type} (r : Resolver Node V)
    (kinds : List ProviderKind) (h : ResolverInv r) :
    ResolverInv (resolve_many r kinds).2 := by
  induction kinds generalizing r with
  | nil => exact h
  | cons k ks ih =>
      exact ih (r.resolveOne k).2 (resolveOne_inv r k h)

/-- Any sequence of `resolve_many` requests preserves the invariant. -/
theorem applyMany_inv {Node V : Type} (r : Resolver Node V)
    (reqs : List (List ProviderKind)) (h : ResolverInv r) :
    ResolverInv (r.applyMany reqs) := by
  induction reqs generalizing r with
  | nil => exact h
  | cons ks rest ih =>
      exact ih (resolve_many r ks).2 (resolve_many_inv r ks h)

/-- A fresh Resolver satisfies the invariant. -/
theorem start_inv {Node V : Type} (compute : ProviderKind → List (Node × V)) :
    ResolverInv (Resolver.start compute) := by
  intro k
  exact ⟨Nat.zero_le 1, fun _ => rfl⟩

/-- Claim C9: re-requesting a kind already cached for the tree returns the
cached mapping with the Resolver state (cache and run counts) unchanged — the
provider is not run again — and, starting from a fresh Resolver, after any
sequence of `resolve_many` requests every provider has been computed at most
once. -/
theorem resolve_many_at_most_once {Node V : Type} (r : Resolver Node V)
    (kind : ProviderKind) (m : List (Node × V))
    (compute : ProviderKind → List (Node × V))
    (reqs : List (List ProviderKind)) (k : ProviderKind)
    (hc : lookupD r.cache kind = some m) :
    r.resolveOne kind = (m, r) ∧
    ((Resolver.start compute).applyMany reqs).runCount k ≤ 1 := by
  constructor
  · unfold Resolver.resolveOne
    rw [hc]
  · exact (applyMany_inv (Resolver.start compute) reqs (start_inv compute) k).1

/-- Witness for C9 at a concrete Resolver whose cache already holds kind 0,
and a concrete request sequence that asks for kinds 0 and 1 repeatedly. -/
theorem resolve_many_at_most_once_witness :
    lookupD (⟨fun _ => [], [(0, [(1, 2)])], fun _ => 1⟩ :
        Resolver Nat Nat).cache 0 = some [(1, 2)] ∧
    ((⟨fun _ => [], [(0, [(1, 2)])], fun _ => 1⟩ :
          Resolver Nat Nat).resolveOne 0 =
        ([(1, 2)], ⟨fun _ => [], [(0, [(1, 2)])], fun _ => 1⟩) ∧
      ((Resolver.start
            (fun _ => ([] : List (Nat × Nat)))).applyMany
          [[0, 1], [0], [1, 0]]).runCount 0 ≤ 1) :=
  ⟨rfl, resolve_many_at_most_once _ 0 [(1, 2)]
    (fun _ => ([] : List (Nat × Nat))) [[0, 1], [0], [1, 0]] 0 rfl⟩

/-- Witness for C10: a fresh instance of a type declaring kind 0 raises the
dict `KeyError` for kind 0 despite the supplied default. -/
theorem get_metadata_outside_session_keyerror_witness :
    (0 : ProviderKind) ∈ computeInheritedDeps ⟨[⟨[0], true⟩]⟩ ∧
    get_metadata (DependentInst.init Nat Nat ⟨[⟨[0], true⟩]⟩) 0 5 (some 9) =
      GetResult.errKeyError :=
  ⟨by decide,
    get_metadata_outside_session_keyerror ⟨[⟨[0], true⟩]⟩ 0 5 9 (by decide)⟩

end LibCSTSpec
